import Mathlib

/-!
Shallow embedding of the Whale Simulator game core (src/entity.rs, src/game.rs,
src/main.rs).

Modelling conventions:
* `Instant` and `Duration` are modelled as `Nat` milliseconds (nanoseconds in
  the driver-loop model, where `Duration::from_secs(1) / tick_rate` needs
  sub-millisecond resolution).  Each tick reads the clock once: every
  `Instant::now()` call inside one `input`/`think` pass is the same `now`.
* `u16`/`usize` values are modelled as `Nat`.  The coordinate additions of
  `Player::migrate` can overflow `u16` on inputs the claims quantify over, so
  their wraparound is modelled explicitly as `% 65536` (release-mode
  semantics; a debug build would panic at the overflow instead).  The other
  entity-movement additions run behind cull guards that keep their operands
  below `2^16` except on a 65535-sized axis, where the wrapped value would
  re-enter the field; they are left as plain `Nat`.
* `thread_rng().gen_range(lo..hi)` is modelled by an oracle value `r : Nat`
  mapped into the range as `lo + r % (hi - lo)`; the oracle is a parameter of
  the tick, so theorems quantify over all random outcomes.
* Terminal I/O (`draw`, `end`, raw-mode setup, key decoding) has no effect on
  the game state and is dropped; keyboard input is abstracted to the decoded
  events that `GameState::input` dispatches on.
-/

/-- `Point` from game.rs: `pub type Point = (u16, u16);`. -/
abbrev Point := Nat × Nat

/-- `Direction` from entity.rs. -/
inductive Direction
  | up
  | down
  | left
  | right
deriving DecidableEq

/-- `Player` from entity.rs. -/
structure Player where
  harpoonedUntil : Nat
  harpoonCount : Nat
  krillEaten : Nat
  position : Point
deriving DecidableEq

/-- `Player::harpoon` from entity.rs: `harpooned_until = now + 2s; harpoon_count += 1`. -/
def Player.harpoon (p : Player) (now : Nat) : Player :=
  { p with harpoonedUntil := now + 2000, harpoonCount := p.harpoonCount + 1 }

/-- `Player::migrate` from entity.rs: no-op while harpooned, otherwise a
bounds-guarded step of 1 vertically or 2 horizontally.  The Down and Right
additions are `u16` additions that wrap at `2^16` (release-mode semantics,
modelled as `% 65536`; a debug build panics at the overflow); the Up and Left
subtractions are guarded and cannot underflow. -/
def Player.migrate (p : Player) (now : Nat) (size : Point) (direction : Direction) : Player :=
  if p.harpoonedUntil > now then p
  else
    match direction with
    | .up =>
        if p.position.2 > 6 then { p with position := (p.position.1, p.position.2 - 1) } else p
    | .down =>
        if (p.position.2 + 1) % 65536 ≤ size.2 then
          { p with position := (p.position.1, (p.position.2 + 1) % 65536) }
        else p
    | .left =>
        if p.position.1 ≥ 2 then { p with position := (p.position.1 - 2, p.position.2) } else p
    | .right =>
        if (p.position.1 + 2) % 65536 ≤ size.1 then
          { p with position := ((p.position.1 + 2) % 65536, p.position.2) }
        else p

/-- `Player::new` from entity.rs. -/
def Player.new (dimensions : Point) (now : Nat) : Player :=
  { krillEaten := 0
    harpoonCount := 0
    harpoonedUntil := now
    position := (dimensions.1 / 2, dimensions.2 / 2 + 3) }

/-- `Krill` from entity.rs. -/
structure Krill where
  position : Point
deriving DecidableEq

/-- `Krill::new` from entity.rs: `pos_x = gen_range(0..size.0 / 2) * 2`,
`pos_y = gen_range(7..size.1)`; `rx`, `ry` are the oracle draws. -/
def Krill.new (size : Point) (rx ry : Nat) : Krill :=
  { position := ((rx % (size.1 / 2)) * 2, 7 + ry % (size.2 - 7)) }

/-- `Boat` from entity.rs. -/
structure Boat where
  nextHarpoonSpawn : Nat
  position : Nat
deriving DecidableEq

/-- `Boat::next_harpoon_spawn` from entity.rs: `now + gen_range(5_000..10_000) ms`. -/
def Boat.freshHarpoonSpawn (now r : Nat) : Nat :=
  now + (5000 + r % 5000)

/-- `Boat::new` from entity.rs. -/
def Boat.new (now r : Nat) : Boat :=
  { nextHarpoonSpawn := Boat.freshHarpoonSpawn now r, position := 0 }

/-- `Boat::harpoon_time` from entity.rs: if the deadline passed, reset it
(with fresh jitter `r`) and report `true`. -/
def Boat.harpoonTime (b : Boat) (now r : Nat) : Bool × Boat :=
  if b.nextHarpoonSpawn < now then
    (true, { b with nextHarpoonSpawn := Boat.freshHarpoonSpawn now r })
  else
    (false, b)

/-- `Boat::migrate` from entity.rs: `position += 2`. -/
def Boat.migrate (b : Boat) : Boat :=
  { b with position := b.position + 2 }

/-- `Harpoon` from entity.rs. -/
structure Harpoon where
  position : Point
deriving DecidableEq

/-- `Harpoon::new` from entity.rs: spawns at `(boat.position(), 6)`. -/
def Harpoon.new (boat : Boat) : Harpoon :=
  { position := (boat.position, 6) }

/-- `Harpoon::migrate` from entity.rs: `position.1 += 1`. -/
def Harpoon.migrate (h : Harpoon) : Harpoon :=
  { position := (h.position.1, h.position.2 + 1) }

/-- The decoded keyboard events `GameState::input` dispatches on (game.rs):
arrow/wasd/hjkl movement keys, Esc/q quit, and any other key. -/
inductive Key
  | up
  | down
  | left
  | right
  | quit
  | other
deriving DecidableEq

/-- `GameState` from game.rs (the `stdin`/`stdout` handles carry no game
state and are dropped). -/
structure GameState where
  alive : Bool
  boats : List Boat
  harpoons : List Harpoon
  krill : List Krill
  player : Player
  nextBoatMove : Nat
  nextBoatSpawn : Nat
  nextHarpoonMove : Nat
  nextKrill : Nat
  size : Point
deriving DecidableEq

/-- One iteration of the key loop in `GameState::input` (game.rs). -/
def GameState.handleKey (s : GameState) (now : Nat) (k : Key) : GameState :=
  match k with
  | .up => { s with player := s.player.migrate now s.size .up }
  | .down => { s with player := s.player.migrate now s.size .down }
  | .right => { s with player := s.player.migrate now s.size .right }
  | .left => { s with player := s.player.migrate now s.size .left }
  | .quit => { s with alive := false }
  | .other => s

/-- `GameState::input` from game.rs: drain the pending key events in arrival
order. -/
def GameState.input (s : GameState) (now : Nat) (keys : List Key) : GameState :=
  keys.foldl (fun t k => t.handleKey now k) s

/-- Step 1 of `GameState::think` (game.rs): retain harpoons away from the
player; if any was removed, harpoon the player. -/
def GameState.harpoonCollide (s : GameState) (now : Nat) : GameState :=
  let remaining := s.harpoons.filter (fun h => h.position ≠ s.player.position)
  { s with
    harpoons := remaining
    player :=
      if s.harpoons.length - remaining.length ≠ 0 then s.player.harpoon now else s.player }

/-- Step 2 of `GameState::think` (game.rs): retain krill away from the player;
credit the player with the number removed. -/
def GameState.krillCollide (s : GameState) : GameState :=
  let remaining := s.krill.filter (fun k => k.position ≠ s.player.position)
  { s with
    krill := remaining
    player :=
      { s.player with krillEaten := s.player.krillEaten + (s.krill.length - remaining.length) } }

/-- Step 3 of `GameState::think` (game.rs): when the boat-move deadline has
passed, cull boats past the right edge, then advance the survivors. -/
def GameState.boatPhase (s : GameState) (now : Nat) : GameState :=
  if s.nextBoatMove < now then
    { s with
      boats := (s.boats.filter (fun b => b.position + 2 < s.size.1)).map Boat.migrate
      nextBoatMove := now + 1000 }
  else s

/-- Step 4 of `GameState::think` (game.rs): when the harpoon-move deadline has
passed, cull harpoons past the bottom edge, then advance the survivors. -/
def GameState.harpoonPhase (s : GameState) (now : Nat) : GameState :=
  if s.nextHarpoonMove < now then
    { s with
      harpoons := (s.harpoons.filter (fun h => h.position.2 + 1 < s.size.2)).map Harpoon.migrate
      nextHarpoonMove := now + 250 }
  else s

/-- `max_krill` from `GameState::think` (game.rs): `size.0 * size.1 / 100`. -/
def GameState.maxKrill (s : GameState) : Nat :=
  s.size.1 * s.size.2 / 100

/-- Step 5 of `GameState::think` (game.rs): spawn a krill when below the cap
and the deadline has passed; the deadline is reset (jitter
`gen_range(500..5_000) ms`) only inside that branch. -/
def GameState.krillSpawnPhase (s : GameState) (now rx ry rdelay : Nat) : GameState :=
  if s.krill.length < s.maxKrill ∧ s.nextKrill < now then
    { s with
      krill := s.krill ++ [Krill.new s.size rx ry]
      nextKrill := now + (500 + rdelay % 4500) }
  else s

/-- Step 6 of `GameState::think` (game.rs): spawn a boat when the deadline has
passed; reset with jitter `gen_range(2_500..5_000) ms`.  `rboat` is the new
boat's own launch jitter (`Boat::new` draws it internally). -/
def GameState.boatSpawnPhase (s : GameState) (now rdelay rboat : Nat) : GameState :=
  if s.nextBoatSpawn < now then
    { s with
      boats := s.boats ++ [Boat.new now rboat]
      nextBoatSpawn := now + (2500 + rdelay % 2500) }
  else s

/-- The loop of step 7 of `GameState::think` (game.rs): ask each boat in turn
whether it is harpoon time (resetting its deadline with jitter `rs i` for the
i-th boat, offset by `i0`) and collect the launched harpoons in order. -/
def launchHarpoons (now : Nat) (rs : Nat → Nat) : List Boat → Nat → List Boat × List Harpoon
  | [], _ => ([], [])
  | b :: bs, i0 =>
      let fired := b.harpoonTime now (rs i0)
      let rest := launchHarpoons now rs bs (i0 + 1)
      (fired.2 :: rest.1, (if fired.1 then [Harpoon.new fired.2] else []) ++ rest.2)

/-- Step 7 of `GameState::think` (game.rs): per-boat launch check; new
harpoons are pushed onto the end of the harpoon list. -/
def GameState.launchPhase (s : GameState) (now : Nat) (rs : Nat → Nat) : GameState :=
  let r := launchHarpoons now rs s.boats 0
  { s with boats := r.1, harpoons := s.harpoons ++ r.2 }

/-- All random draws `GameState::think` makes in one tick, plus the tick's
pending key events. -/
structure Oracle where
  keys : List Key
  krillX : Nat
  krillY : Nat
  krillDelay : Nat
  boatDelay : Nat
  boatLaunch : Nat
  launchDelay : Nat → Nat

/-- `GameState::think` from game.rs: the seven steps in source order. -/
def GameState.think (s : GameState) (now : Nat) (o : Oracle) : GameState :=
  ((((((s.harpoonCollide now).krillCollide).boatPhase now).harpoonPhase
        now).krillSpawnPhase now o.krillX o.krillY o.krillDelay).boatSpawnPhase now o.boatDelay
      o.boatLaunch).launchPhase now o.launchDelay

/-- `GameState::tick` from game.rs: `input`, then `think` (then `draw`, which
does not touch the state); returns `alive`. -/
def GameState.tick (s : GameState) (now : Nat) (o : Oracle) : GameState × Bool :=
  let s1 := (s.input now o.keys).think now o
  (s1, s1.alive)

/-- The state built by the `Ok` branch of `GameState::new` (game.rs): empty
entity lists, all deadlines due now, a fresh centered player. -/
def GameState.fresh (size : Point) (now : Nat) : GameState :=
  { alive := true
    boats := []
    harpoons := []
    krill := []
    nextBoatMove := now
    nextBoatSpawn := now
    nextHarpoonMove := now
    nextKrill := now
    player := Player.new size now
    size := size }

/-- `GameState::new` from game.rs: reject terminals smaller than 20x15. -/
def GameState.new (size : Point) (now : Nat) : Except String GameState :=
  if size.1 < 20 ∨ size.2 < 15 then
    Except.error "The terminal must be at least 20x15"
  else
    Except.ok (GameState.fresh size now)

/-- The states the engine can reach: a freshly constructed state (for a
terminal `GameState::new` accepts), closed under `tick` with any clock value
and any oracle. -/
inductive Reachable : GameState → Prop
  | init (size : Point) (now : Nat) (hw : 20 ≤ size.1) (hh : 15 ≤ size.2) :
      Reachable (GameState.fresh size now)
  | step (s : GameState) (now : Nat) (o : Oracle) :
      Reachable s → Reachable (s.tick now o).1

/-- `Duration - Duration` as used in main.rs.  Rust `Duration` subtraction
panics when the result would be negative; the panic is modelled as `none`. -/
def durationSub (a b : Nat) : Option Nat :=
  if b ≤ a then some (a - b) else none

/-- `tick_max` from main.rs: `Duration::from_secs(1) / tick_rate`, in
nanoseconds. -/
def tickMaxNanos (tickRate : Nat) : Nat :=
  1000000000 / tickRate

/-- The sleep duration the driver loop computes each iteration (main.rs):
`tick_max - tick_length`. -/
def tickSleep (tickMax tickLength : Nat) : Option Nat :=
  durationSub tickMax tickLength

/-- The post-tick snapshot property of spec section 8: every boat is strictly
inside the field on its axis of travel, and so is every harpoon. -/
def GameState.entitiesInBounds (s : GameState) : Prop :=
  (∀ b ∈ s.boats, b.position < s.size.1) ∧ ∀ h ∈ s.harpoons, h.position.2 < s.size.2

/-- An oracle for ticks with no pending key events (all jitter draws zero). -/
def oracleQuiet : Oracle :=
  { keys := [], krillX := 0, krillY := 0, krillDelay := 0, boatDelay := 0, boatLaunch := 0
    launchDelay := fun _ => 0 }

/-- An oracle whose only pending key event is Down. -/
def oracleDown : Oracle :=
  { oracleQuiet with keys := [Key.down] }

/-- A 20x15 game whose player sits at (10, 10) under two coincident harpoons;
no timer is due at clock value 5. -/
def stateTwoCoincidentHarpoons : GameState :=
  { GameState.fresh (20, 15) 5 with
    harpoons := [⟨(10, 10)⟩, ⟨(10, 10)⟩]
    player := { harpoonedUntil := 0, harpoonCount := 0, krillEaten := 0, position := (10, 10) } }

/-- A 20x15 game whose player sits at (10, 10) under exactly one harpoon. -/
def stateOneCoincidentHarpoon : GameState :=
  { GameState.fresh (20, 15) 5 with
    harpoons := [⟨(10, 10)⟩]
    player := { harpoonedUntil := 0, harpoonCount := 0, krillEaten := 0, position := (10, 10) } }

/-- A 20x15 game with the player at (10, 10) and a harpoon one row below it
at (10, 11); no timer is due at clock value 10. -/
def stateHarpoonBelowPlayer : GameState :=
  { GameState.fresh (20, 15) 10 with
    harpoons := [⟨(10, 11)⟩]
    player := { harpoonedUntil := 0, harpoonCount := 0, krillEaten := 0, position := (10, 10) } }

/-- A 20x15 game holding `max_krill = 3` krill whose krill-spawn deadline
(zero) has long passed at clock value 10. -/
def stateKrillAtCap : GameState :=
  { GameState.fresh (20, 15) 10 with
    krill := [⟨(0, 7)⟩, ⟨(2, 7)⟩, ⟨(4, 7)⟩]
    nextKrill := 0 }

/-- A 20x15 game that has already ended (`alive = false`) and whose boat-spawn
deadline (zero) has passed at clock value 10. -/
def stateEnded : GameState :=
  { GameState.fresh (20, 15) 10 with
    alive := false
    nextBoatSpawn := 0 }

/-! Field-preservation lemmas for the individual actions and tick phases. -/

theorem Player.migrate_harpoonCount (p : Player) (now : Nat) (size : Point) (d : Direction) :
    (p.migrate now size d).harpoonCount = p.harpoonCount := by
  cases d <;> simp only [Player.migrate] <;> split <;> (try rfl) <;> split <;> rfl

theorem Player.migrate_harpoonedUntil (p : Player) (now : Nat) (size : Point) (d : Direction) :
    (p.migrate now size d).harpoonedUntil = p.harpoonedUntil := by
  cases d <;> simp only [Player.migrate] <;> split <;> (try rfl) <;> split <;> rfl

theorem Player.migrate_fst_mod_two (p : Player) (now : Nat) (size : Point) (d : Direction) :
    (p.migrate now size d).position.1 % 2 = p.position.1 % 2 := by
  cases d <;> simp only [Player.migrate] <;> split <;> (try rfl) <;>
    split <;> (try rfl) <;> dsimp only <;> omega

theorem GameState.input_cons (s : GameState) (now : Nat) (k : Key) (ks : List Key) :
    s.input now (k :: ks) = (s.handleKey now k).input now ks := rfl

theorem GameState.handleKey_size (s : GameState) (now : Nat) (k : Key) :
    (s.handleKey now k).size = s.size := by
  cases k <;> rfl

theorem GameState.handleKey_boats (s : GameState) (now : Nat) (k : Key) :
    (s.handleKey now k).boats = s.boats := by
  cases k <;> rfl

theorem GameState.handleKey_harpoons (s : GameState) (now : Nat) (k : Key) :
    (s.handleKey now k).harpoons = s.harpoons := by
  cases k <;> rfl

theorem GameState.handleKey_krill (s : GameState) (now : Nat) (k : Key) :
    (s.handleKey now k).krill = s.krill := by
  cases k <;> rfl

theorem GameState.handleKey_nextKrill (s : GameState) (now : Nat) (k : Key) :
    (s.handleKey now k).nextKrill = s.nextKrill := by
  cases k <;> rfl

theorem GameState.handleKey_harpoonCount (s : GameState) (now : Nat) (k : Key) :
    (s.handleKey now k).player.harpoonCount = s.player.harpoonCount := by
  cases k <;> simp only [GameState.handleKey, Player.migrate_harpoonCount]

theorem GameState.handleKey_harpoonedUntil (s : GameState) (now : Nat) (k : Key) :
    (s.handleKey now k).player.harpoonedUntil = s.player.harpoonedUntil := by
  cases k <;> simp only [GameState.handleKey, Player.migrate_harpoonedUntil]

theorem GameState.handleKey_player_fst_mod_two (s : GameState) (now : Nat) (k : Key) :
    (s.handleKey now k).player.position.1 % 2 = s.player.position.1 % 2 := by
  cases k <;> simp only [GameState.handleKey, Player.migrate_fst_mod_two]

theorem GameState.handleKey_alive_false (s : GameState) (now : Nat) (k : Key)
    (h : s.alive = false) : (s.handleKey now k).alive = false := by
  cases k <;> first | rfl | exact h

theorem GameState.input_size (s : GameState) (now : Nat) (keys : List Key) :
    (s.input now keys).size = s.size := by
  induction keys generalizing s with
  | nil => rfl
  | cons k ks ih => rw [GameState.input_cons, ih, GameState.handleKey_size]

theorem GameState.input_boats (s : GameState) (now : Nat) (keys : List Key) :
    (s.input now keys).boats = s.boats := by
  induction keys generalizing s with
  | nil => rfl
  | cons k ks ih => rw [GameState.input_cons, ih, GameState.handleKey_boats]

theorem GameState.input_harpoons (s : GameState) (now : Nat) (keys : List Key) :
    (s.input now keys).harpoons = s.harpoons := by
  induction keys generalizing s with
  | nil => rfl
  | cons k ks ih => rw [GameState.input_cons, ih, GameState.handleKey_harpoons]

theorem GameState.input_krill (s : GameState) (now : Nat) (keys : List Key) :
    (s.input now keys).krill = s.krill := by
  induction keys generalizing s with
  | nil => rfl
  | cons k ks ih => rw [GameState.input_cons, ih, GameState.handleKey_krill]

theorem GameState.input_nextKrill (s : GameState) (now : Nat) (keys : List Key) :
    (s.input now keys).nextKrill = s.nextKrill := by
  induction keys generalizing s with
  | nil => rfl
  | cons k ks ih => rw [GameState.input_cons, ih, GameState.handleKey_nextKrill]

theorem GameState.input_harpoonCount (s : GameState) (now : Nat) (keys : List Key) :
    (s.input now keys).player.harpoonCount = s.player.harpoonCount := by
  induction keys generalizing s with
  | nil => rfl
  | cons k ks ih => rw [GameState.input_cons, ih, GameState.handleKey_harpoonCount]

theorem GameState.input_player_fst_mod_two (s : GameState) (now : Nat) (keys : List Key) :
    (s.input now keys).player.position.1 % 2 = s.player.position.1 % 2 := by
  induction keys generalizing s with
  | nil => rfl
  | cons k ks ih => rw [GameState.input_cons, ih, GameState.handleKey_player_fst_mod_two]

theorem GameState.input_alive_false (s : GameState) (now : Nat) (keys : List Key)
    (h : s.alive = false) : (s.input now keys).alive = false := by
  induction keys generalizing s with
  | nil => exact h
  | cons k ks ih => rw [GameState.input_cons]; exact ih _ (GameState.handleKey_alive_false _ _ _ h)

/-- Generic list fact behind the retain-then-count-removed idiom: the removed
count is nonzero exactly when some element fails the kept-predicate. -/
theorem length_sub_filter_ne_zero_iff {α : Type} (p : α → Bool) (l : List α) :
    l.length - (l.filter p).length ≠ 0 ↔ ∃ x ∈ l, ¬p x := by
  induction l with
  | nil => simp
  | cons a l ih =>
    have hle := l.length_filter_le p
    by_cases h : p a
    · simp only [List.filter_cons, h, if_pos, List.length_cons, Nat.succ_sub_succ,
        List.mem_cons, exists_eq_or_imp, h, not_true_eq_false, false_or]
      exact ih
    · simp only [List.filter_cons, h, if_neg, Bool.false_eq_true, List.length_cons,
        List.mem_cons, exists_eq_or_imp, not_false_eq_true, true_or, iff_true]
      omega

theorem GameState.harpoonCollide_removed_iff (s : GameState) :
    s.harpoons.length - (s.harpoons.filter (fun h => h.position ≠ s.player.position)).length ≠ 0
      ↔ ∃ h ∈ s.harpoons, h.position = s.player.position := by
  rw [length_sub_filter_ne_zero_iff]
  simp

theorem GameState.harpoonCollide_harpoons (s : GameState) (now : Nat) :
    (s.harpoonCollide now).harpoons
      = s.harpoons.filter (fun h => h.position ≠ s.player.position) := rfl

theorem GameState.harpoonCollide_player_eq (s : GameState) (now : Nat) :
    (s.harpoonCollide now).player =
      if ∃ h ∈ s.harpoons, h.position = s.player.position then s.player.harpoon now
      else s.player := by
  by_cases hex : ∃ h ∈ s.harpoons, h.position = s.player.position
  · simp only [GameState.harpoonCollide,
      if_pos ((GameState.harpoonCollide_removed_iff s).mpr hex), if_pos hex]
  · simp only [GameState.harpoonCollide,
      if_neg (fun hc => hex ((GameState.harpoonCollide_removed_iff s).mp hc)), if_neg hex]

theorem GameState.harpoonCollide_player_position (s : GameState) (now : Nat) :
    (s.harpoonCollide now).player.position = s.player.position := by
  rw [GameState.harpoonCollide_player_eq]; split <;> rfl

theorem GameState.harpoonCollide_boats (s : GameState) (now : Nat) :
    (s.harpoonCollide now).boats = s.boats := rfl

theorem GameState.harpoonCollide_krill (s : GameState) (now : Nat) :
    (s.harpoonCollide now).krill = s.krill := rfl

theorem GameState.harpoonCollide_alive (s : GameState) (now : Nat) :
    (s.harpoonCollide now).alive = s.alive := rfl

theorem GameState.harpoonCollide_size (s : GameState) (now : Nat) :
    (s.harpoonCollide now).size = s.size := rfl

theorem GameState.harpoonCollide_nextKrill (s : GameState) (now : Nat) :
    (s.harpoonCollide now).nextKrill = s.nextKrill := rfl

theorem GameState.krillCollide_krill (s : GameState) :
    s.krillCollide.krill = s.krill.filter (fun k => k.position ≠ s.player.position) := rfl

theorem GameState.krillCollide_player_position (s : GameState) :
    s.krillCollide.player.position = s.player.position := rfl

theorem GameState.krillCollide_harpoonCount (s : GameState) :
    s.krillCollide.player.harpoonCount = s.player.harpoonCount := rfl

theorem GameState.krillCollide_boats (s : GameState) : s.krillCollide.boats = s.boats := rfl

theorem GameState.krillCollide_harpoons (s : GameState) :
    s.krillCollide.harpoons = s.harpoons := rfl

theorem GameState.krillCollide_alive (s : GameState) : s.krillCollide.alive = s.alive := rfl

theorem GameState.krillCollide_size (s : GameState) : s.krillCollide.size = s.size := rfl

theorem GameState.krillCollide_nextKrill (s : GameState) :
    s.krillCollide.nextKrill = s.nextKrill := rfl

theorem GameState.boatPhase_player (s : GameState) (now : Nat) :
    (s.boatPhase now).player = s.player := by
  unfold GameState.boatPhase; split <;> rfl

theorem GameState.boatPhase_harpoons (s : GameState) (now : Nat) :
    (s.boatPhase now).harpoons = s.harpoons := by
  unfold GameState.boatPhase; split <;> rfl

theorem GameState.boatPhase_krill (s : GameState) (now : Nat) :
    (s.boatPhase now).krill = s.krill := by
  unfold GameState.boatPhase; split <;> rfl

theorem GameState.boatPhase_alive (s : GameState) (now : Nat) :
    (s.boatPhase now).alive = s.alive := by
  unfold GameState.boatPhase; split <;> rfl

theorem GameState.boatPhase_size (s : GameState) (now : Nat) :
    (s.boatPhase now).size = s.size := by
  unfold GameState.boatPhase; split <;> rfl

theorem GameState.boatPhase_nextKrill (s : GameState) (now : Nat) :
    (s.boatPhase now).nextKrill = s.nextKrill := by
  unfold GameState.boatPhase; split <;> rfl

theorem GameState.harpoonPhase_player (s : GameState) (now : Nat) :
    (s.harpoonPhase now).player = s.player := by
  unfold GameState.harpoonPhase; split <;> rfl

theorem GameState.harpoonPhase_boats (s : GameState) (now : Nat) :
    (s.harpoonPhase now).boats = s.boats := by
  unfold GameState.harpoonPhase; split <;> rfl

theorem GameState.harpoonPhase_krill (s : GameState) (now : Nat) :
    (s.harpoonPhase now).krill = s.krill := by
  unfold GameState.harpoonPhase; split <;> rfl

theorem GameState.harpoonPhase_alive (s : GameState) (now : Nat) :
    (s.harpoonPhase now).alive = s.alive := by
  unfold GameState.harpoonPhase; split <;> rfl

theorem GameState.harpoonPhase_size (s : GameState) (now : Nat) :
    (s.harpoonPhase now).size = s.size := by
  unfold GameState.harpoonPhase; split <;> rfl

theorem GameState.harpoonPhase_nextKrill (s : GameState) (now : Nat) :
    (s.harpoonPhase now).nextKrill = s.nextKrill := by
  unfold GameState.harpoonPhase; split <;> rfl

theorem GameState.krillSpawnPhase_player (s : GameState) (now rx ry rdelay : Nat) :
    (s.krillSpawnPhase now rx ry rdelay).player = s.player := by
  unfold GameState.krillSpawnPhase; split <;> rfl

theorem GameState.krillSpawnPhase_boats (s : GameState) (now rx ry rdelay : Nat) :
    (s.krillSpawnPhase now rx ry rdelay).boats = s.boats := by
  unfold GameState.krillSpawnPhase; split <;> rfl

theorem GameState.krillSpawnPhase_harpoons (s : GameState) (now rx ry rdelay : Nat) :
    (s.krillSpawnPhase now rx ry rdelay).harpoons = s.harpoons := by
  unfold GameState.krillSpawnPhase; split <;> rfl

theorem GameState.krillSpawnPhase_alive (s : GameState) (now rx ry rdelay : Nat) :
    (s.krillSpawnPhase now rx ry rdelay).alive = s.alive := by
  unfold GameState.krillSpawnPhase; split <;> rfl

theorem GameState.krillSpawnPhase_size (s : GameState) (now rx ry rdelay : Nat) :
    (s.krillSpawnPhase now rx ry rdelay).size = s.size := by
  unfold GameState.krillSpawnPhase; split <;> rfl

theorem GameState.boatSpawnPhase_player (s : GameState) (now rdelay rboat : Nat) :
    (s.boatSpawnPhase now rdelay rboat).player = s.player := by
  unfold GameState.boatSpawnPhase; split <;> rfl

theorem GameState.boatSpawnPhase_harpoons (s : GameState) (now rdelay rboat : Nat) :
    (s.boatSpawnPhase now rdelay rboat).harpoons = s.harpoons := by
  unfold GameState.boatSpawnPhase; split <;> rfl

theorem GameState.boatSpawnPhase_krill (s : GameState) (now rdelay rboat : Nat) :
    (s.boatSpawnPhase now rdelay rboat).krill = s.krill := by
  unfold GameState.boatSpawnPhase; split <;> rfl

theorem GameState.boatSpawnPhase_alive (s : GameState) (now rdelay rboat : Nat) :
    (s.boatSpawnPhase now rdelay rboat).alive = s.alive := by
  unfold GameState.boatSpawnPhase; split <;> rfl

theorem GameState.boatSpawnPhase_size (s : GameState) (now rdelay rboat : Nat) :
    (s.boatSpawnPhase now rdelay rboat).size = s.size := by
  unfold GameState.boatSpawnPhase; split <;> rfl

theorem GameState.boatSpawnPhase_nextKrill (s : GameState) (now rdelay rboat : Nat) :
    (s.boatSpawnPhase now rdelay rboat).nextKrill = s.nextKrill := by
  unfold GameState.boatSpawnPhase; split <;> rfl

theorem GameState.launchPhase_player (s : GameState) (now : Nat) (rs : Nat → Nat) :
    (s.launchPhase now rs).player = s.player := rfl

theorem GameState.launchPhase_krill (s : GameState) (now : Nat) (rs : Nat → Nat) :
    (s.launchPhase now rs).krill = s.krill := rfl

theorem GameState.launchPhase_alive (s : GameState) (now : Nat) (rs : Nat → Nat) :
    (s.launchPhase now rs).alive = s.alive := rfl

theorem GameState.launchPhase_size (s : GameState) (now : Nat) (rs : Nat → Nat) :
    (s.launchPhase now rs).size = s.size := rfl

theorem GameState.launchPhase_nextKrill (s : GameState) (now : Nat) (rs : Nat → Nat) :
    (s.launchPhase now rs).nextKrill = s.nextKrill := rfl

/-! Combined lemmas about a whole `think` pass and a whole `tick`. -/

theorem GameState.think_alive_eq (s : GameState) (now : Nat) (o : Oracle) :
    (s.think now o).alive = s.alive := by
  simp only [GameState.think, GameState.launchPhase_alive, GameState.boatSpawnPhase_alive,
    GameState.krillSpawnPhase_alive, GameState.harpoonPhase_alive, GameState.boatPhase_alive,
    GameState.krillCollide_alive, GameState.harpoonCollide_alive]

theorem GameState.think_size_eq (s : GameState) (now : Nat) (o : Oracle) :
    (s.think now o).size = s.size := by
  simp only [GameState.think, GameState.launchPhase_size, GameState.boatSpawnPhase_size,
    GameState.krillSpawnPhase_size, GameState.harpoonPhase_size, GameState.boatPhase_size,
    GameState.krillCollide_size, GameState.harpoonCollide_size]

theorem GameState.think_player_position (s : GameState) (now : Nat) (o : Oracle) :
    (s.think now o).player.position = s.player.position := by
  simp only [GameState.think, GameState.launchPhase_player, GameState.boatSpawnPhase_player,
    GameState.krillSpawnPhase_player, GameState.harpoonPhase_player, GameState.boatPhase_player,
    GameState.krillCollide_player_position, GameState.harpoonCollide_player_position]

theorem GameState.think_harpoonCount (s : GameState) (now : Nat) (o : Oracle) :
    (s.think now o).player.harpoonCount =
      if ∃ h ∈ s.harpoons, h.position = s.player.position then s.player.harpoonCount + 1
      else s.player.harpoonCount := by
  simp only [GameState.think, GameState.launchPhase_player, GameState.boatSpawnPhase_player,
    GameState.krillSpawnPhase_player, GameState.harpoonPhase_player, GameState.boatPhase_player,
    GameState.krillCollide_harpoonCount, GameState.harpoonCollide_player_eq]
  split <;> rfl

theorem GameState.tick_size (s : GameState) (now : Nat) (o : Oracle) :
    (s.tick now o).1.size = s.size := by
  unfold GameState.tick
  rw [GameState.think_size_eq, GameState.input_size]

/-! Claim theorems. -/

/-- Claim C1 as stated is false: with two coincident harpoons on the player,
the collision step removes both but `Player::harpoon` increments the hit
count by 1, not by the number removed (2). -/
theorem c1_counterexample :
    stateTwoCoincidentHarpoons.harpoons.length
        - (stateTwoCoincidentHarpoons.harpoonCollide 5).harpoons.length = 2 ∧
      ¬((stateTwoCoincidentHarpoons.harpoonCollide 5).player.harpoonCount
          = stateTwoCoincidentHarpoons.player.harpoonCount + 2) := by
  decide

/-- Claim C1 (amended): in a tick in which at least one harpoon occupies the
player's exact position at the collision check, the collision step removes
every coincident harpoon, increments the hit count by exactly one (however
many were removed), and disables the player until `now + 2000`. -/
theorem c1_hit_removes_and_disables (s : GameState) (now : Nat)
    (hex : ∃ h ∈ s.harpoons, h.position = s.player.position) :
    (∀ h ∈ (s.harpoonCollide now).harpoons, h.position ≠ s.player.position) ∧
      (s.harpoonCollide now).player.harpoonCount = s.player.harpoonCount + 1 ∧
      (s.harpoonCollide now).player.harpoonedUntil = now + 2000 := by
  refine ⟨?_, ?_, ?_⟩
  · intro h hmem
    rw [GameState.harpoonCollide_harpoons] at hmem
    simpa using List.of_mem_filter hmem
  · rw [GameState.harpoonCollide_player_eq, if_pos hex]; rfl
  · rw [GameState.harpoonCollide_player_eq, if_pos hex]; rfl

/-- Claim C1 witness: the amended statement evaluated on a concrete game with
one harpoon on the player. -/
theorem c1_hit_removes_and_disables_witness :
    (∃ h ∈ stateOneCoincidentHarpoon.harpoons,
        h.position = stateOneCoincidentHarpoon.player.position) ∧
      ((∀ h ∈ (stateOneCoincidentHarpoon.harpoonCollide 5).harpoons,
          h.position ≠ stateOneCoincidentHarpoon.player.position) ∧
        (stateOneCoincidentHarpoon.harpoonCollide 5).player.harpoonCount
            = stateOneCoincidentHarpoon.player.harpoonCount + 1 ∧
        (stateOneCoincidentHarpoon.harpoonCollide 5).player.harpoonedUntil = 5 + 2000) :=
  ⟨by decide, c1_hit_removes_and_disables stateOneCoincidentHarpoon 5 (by decide)⟩

/-- Claim C2 as stated is false: a non-disabled player at x = 18 on a 20-wide
field moving Right ends at x = 20, which is not strictly below the width. -/
theorem c2_counterexample :
    ¬(((Player.mk 0 0 0 (18, 10)).migrate 5 (20, 15) Direction.right).position.1 < 20) := by
  decide

/-- Claim C2 (amended): for every field size, direction and starting position
with `x ≤ width` and `6 ≤ y ≤ height`, `Player::migrate` keeps `x ≤ width`
and `y ≤ height` (the source guards use `≤ size`, so the inclusive column
`width` and row `height` are reachable), and when `height < 65535` — so the
`u16` increment `y + 1` cannot wrap — it also keeps `6 ≤ y`.  At
`height = 65535` a Down move from `y = 65535` wraps to row 0 in a release
build (a debug build panics), escaping the reserved-row bound. -/
theorem c2_migrate_bounds (p : Player) (now : Nat) (size : Point) (d : Direction)
    (hx : p.position.1 ≤ size.1) (hylo : 6 ≤ p.position.2) (hyhi : p.position.2 ≤ size.2) :
    (p.migrate now size d).position.1 ≤ size.1 ∧
      (p.migrate now size d).position.2 ≤ size.2 ∧
      (size.2 < 65535 → 6 ≤ (p.migrate now size d).position.2) := by
  cases d <;> simp only [Player.migrate] <;> split <;>
    first
      | exact ⟨hx, hyhi, fun _ => hylo⟩
      | (split <;> (try dsimp only) <;> omega)

/-- Claim C2 witness: the amended bounds evaluated on a concrete move. -/
theorem c2_migrate_bounds_witness :
    ((10 : Nat) ≤ 20 ∧ (6 : Nat) ≤ 10 ∧ (10 : Nat) ≤ 15) ∧
      (((Player.mk 0 0 0 (10, 10)).migrate 5 (20, 15) Direction.down).position.1 ≤ 20 ∧
        ((Player.mk 0 0 0 (10, 10)).migrate 5 (20, 15) Direction.down).position.2 ≤ 15 ∧
        ((15 : Nat) < 65535 →
          6 ≤ ((Player.mk 0 0 0 (10, 10)).migrate 5 (20, 15) Direction.down).position.2)) :=
  ⟨by decide,
    c2_migrate_bounds (Player.mk 0 0 0 (10, 10)) 5 (20, 15) Direction.down (by decide)
      (by decide) (by decide)⟩

/-- Claim C3 as stated is false: with no harpoon at the player's start-of-tick
position (10, 10) but one at (10, 11), a tick whose input moves the player
Down still removes that harpoon and disables the player, because `tick` runs
`input` before `think`. -/
theorem c3_counterexample :
    (∀ h ∈ stateHarpoonBelowPlayer.harpoons,
        h.position ≠ stateHarpoonBelowPlayer.player.position) ∧
      (stateHarpoonBelowPlayer.tick 10 oracleDown).1.player.harpoonCount = 1 ∧
      stateHarpoonBelowPlayer.player.harpoonCount = 0 ∧
      (stateHarpoonBelowPlayer.tick 10 oracleDown).1.harpoons = [] := by
  decide

/-- Claim C3 (amended): the harpoon-hit decision of a tick is made against the
player's position after that tick's input events have been applied (input runs
before think), not against the start-of-tick position: the hit count changes
in a tick exactly when some harpoon present at the start of the tick sits at
the post-input player position. -/
theorem c3_hit_checked_after_input (s : GameState) (now : Nat) (o : Oracle) :
    (s.tick now o).1.player.harpoonCount ≠ s.player.harpoonCount ↔
      ∃ h ∈ s.harpoons, h.position = (s.input now o.keys).player.position := by
  unfold GameState.tick
  dsimp only
  rw [GameState.think_harpoonCount, GameState.input_harpoons, GameState.input_harpoonCount]
  split
  · rename_i hex
    simp only [ne_eq, iff_true, hex]
    omega
  · rename_i hex
    exact ⟨fun hc => absurd rfl hc, fun hc => absurd hc hex⟩

/-- Claim C5 as stated is false: with the krill count at the cap and the
spawn deadline long past, the spawn step leaves the state unchanged — in
particular the deadline is not reset. -/
theorem c5_counterexample :
    stateKrillAtCap.nextKrill < 10 ∧
      stateKrillAtCap.maxKrill ≤ stateKrillAtCap.krill.length ∧
      stateKrillAtCap.krillSpawnPhase 10 3 3 3 = stateKrillAtCap := by
  decide

/-- Claim C5 (amended): in a tick whose krill-spawn deadline has elapsed but
whose krill count is at or above `width * height / 100`, the spawn step is a
complete no-op: no krill is created and the deadline is left as it was (still
elapsed), not reset. -/
theorem c5_at_cap_spawn_noop (s : GameState) (now rx ry rdelay : Nat)
    (_helapsed : s.nextKrill < now) (hcap : s.maxKrill ≤ s.krill.length) :
    s.krillSpawnPhase now rx ry rdelay = s := by
  unfold GameState.krillSpawnPhase
  rw [if_neg]
  rintro ⟨hlt, -⟩
  omega

/-- Claim C5 witness: the amended no-op statement evaluated on a concrete
at-capacity game. -/
theorem c5_at_cap_spawn_noop_witness :
    (stateKrillAtCap.nextKrill < 10 ∧
        stateKrillAtCap.maxKrill ≤ stateKrillAtCap.krill.length) ∧
      stateKrillAtCap.krillSpawnPhase 10 7 8 9 = stateKrillAtCap :=
  ⟨by decide, c5_at_cap_spawn_noop stateKrillAtCap 10 7 8 9 (by decide) (by decide)⟩

/-- Claim C6 as stated is false: `GameState::tick` has no guard on `alive`,
so a tick called on an ended game still runs the full update — here it spawns
a boat. -/
theorem c6_counterexample :
    stateEnded.alive = false ∧
      stateEnded.boats.length = 0 ∧
      (stateEnded.tick 10 oracleQuiet).1.boats.length = 1 ∧
      (stateEnded.tick 10 oracleQuiet).1 ≠ stateEnded := by
  decide

/-- Claim C6 (amended): `tick()` is not guarded by the Ended state — it
performs the full update regardless — but once the quit flag is cleared every
call to `tick()` returns `false` (nothing ever sets the flag again), which is
what stops the driver loop from issuing further ticks. -/
theorem c6_ended_tick_returns_false (s : GameState) (now : Nat) (o : Oracle)
    (h : s.alive = false) : (s.tick now o).2 = false := by
  unfold GameState.tick
  dsimp only
  rw [GameState.think_alive_eq]
  exact GameState.input_alive_false _ _ _ h

/-- Claim C6 witness: a tick on a concrete ended game returns `false`. -/
theorem c6_ended_tick_returns_false_witness :
    stateEnded.alive = false ∧ (stateEnded.tick 10 oracleQuiet).2 = false :=
  ⟨by decide, c6_ended_tick_returns_false stateEnded 10 oracleQuiet (by decide)⟩

/-- Claim C8: while the player is disabled (its harpooned-until deadline is
in the future), `Player::migrate` leaves the position unchanged for every
direction, every field size and every starting position. -/
theorem c8_disabled_migrate_noop (p : Player) (now : Nat) (size : Point) (d : Direction)
    (h : now < p.harpoonedUntil) :
    (p.migrate now size d).position = p.position := by
  unfold Player.migrate
  rw [if_pos h]

/-- Claim C8 witness: a disabled player (deadline 5, clock 0) stays at
(10, 10) on a Down input. -/
theorem c8_disabled_migrate_noop_witness :
    (0 : Nat) < 5 ∧
      ((Player.mk 5 0 0 (10, 10)).migrate 0 (20, 15) Direction.down).position = (10, 10) :=
  ⟨by decide, c8_disabled_migrate_noop (Player.mk 5 0 0 (10, 10)) 0 (20, 15) Direction.down
    (by decide)⟩

/-- Claim C9 is right about the intent but the code faults: the driver
computes `tick_max - tick_length` with `Duration` subtraction, which panics
when a tick overruns its budget.  At tick rate 30 the budget is 33333333 ns;
a 50000000 ns tick makes the subtraction fault (modelled as `none`) instead
of yielding a shortened sleep. -/
theorem c9_overrun_sleep_faults :
    tickMaxNanos 30 = 33333333 ∧ tickSleep (tickMaxNanos 30) 50000000 = none := by
  constructor <;> rfl

/-- The krill-spawn step can only exceed the current count when it is below
the cap, so its result stays below both the old count and the cap. -/
theorem GameState.krillSpawnPhase_krill_length (s : GameState) (now rx ry rdelay : Nat) :
    (s.krillSpawnPhase now rx ry rdelay).krill.length ≤ max s.krill.length s.maxKrill := by
  unfold GameState.krillSpawnPhase
  split
  · rename_i hc
    simp only [List.length_append, List.length_singleton]
    omega
  · exact le_max_left _ _

/-- Claim C4: for every state whose krill count is at most
`width * height / 100`, the count after a whole tick (the krill list does not
change after the spawn-attempt step) still does not exceed that bound. -/
theorem c4_krill_cap (s : GameState) (now : Nat) (o : Oracle)
    (hcap : s.krill.length ≤ s.maxKrill) :
    (s.tick now o).1.krill.length ≤ s.maxKrill := by
  unfold GameState.tick GameState.think
  dsimp only
  rw [GameState.launchPhase_krill, GameState.boatSpawnPhase_krill]
  set u := s.input now o.keys with hu
  set m := (((u.harpoonCollide now).krillCollide).boatPhase now).harpoonPhase now with hm
  have hmsize : m.size = s.size := by
    rw [hm, GameState.harpoonPhase_size, GameState.boatPhase_size, GameState.krillCollide_size,
      GameState.harpoonCollide_size, hu, GameState.input_size]
  have hmmax : m.maxKrill = s.maxKrill := by
    unfold GameState.maxKrill
    rw [hmsize]
  have hmlen : m.krill.length ≤ s.krill.length := by
    have hmk : m.krill = (u.harpoonCollide now).krill.filter
        (fun k => k.position ≠ (u.harpoonCollide now).player.position) := by
      rw [hm, GameState.harpoonPhase_krill, GameState.boatPhase_krill,
        GameState.krillCollide_krill]
    rw [hmk, GameState.harpoonCollide_krill, hu, GameState.input_krill]
    exact List.length_filter_le _ _
  have hsp := GameState.krillSpawnPhase_krill_length m now o.krillX o.krillY o.krillDelay
  rw [hmmax] at hsp
  exact hsp.trans (max_le (hmlen.trans hcap) le_rfl)

/-- Claim C4 witness: the cap is respected across a tick of a fresh 20x15
game (cap 3, count 0). -/
theorem c4_krill_cap_witness :
    (GameState.fresh (20, 15) 0).krill.length ≤ (GameState.fresh (20, 15) 0).maxKrill ∧
      ((GameState.fresh (20, 15) 0).tick 0 oracleQuiet).1.krill.length
        ≤ (GameState.fresh (20, 15) 0).maxKrill :=
  ⟨by decide, c4_krill_cap (GameState.fresh (20, 15) 0) 0 oracleQuiet (by decide)⟩

/-! Lemmas for the post-tick bounds invariant (claim C7). -/

theorem Boat.harpoonTime_position (b : Boat) (now r : Nat) :
    (b.harpoonTime now r).2.position = b.position := by
  unfold Boat.harpoonTime
  split <;> rfl

theorem launchHarpoons_boats_mem (now : Nat) (rs : Nat → Nat) :
    ∀ (bs : List Boat) (i0 : Nat), ∀ b ∈ (launchHarpoons now rs bs i0).1,
      ∃ a ∈ bs, b.position = a.position := by
  intro bs
  induction bs with
  | nil =>
    intro i0 b hb
    simp [launchHarpoons] at hb
  | cons a bs ih =>
    intro i0 b hb
    simp only [launchHarpoons] at hb
    rw [List.mem_cons] at hb
    rcases hb with rfl | hb
    · exact ⟨a, List.mem_cons_self a bs, Boat.harpoonTime_position a now (rs i0)⟩
    · obtain ⟨c, hc, hp⟩ := ih (i0 + 1) b hb
      exact ⟨c, List.mem_cons_of_mem a hc, hp⟩

theorem launchHarpoons_harpoons_row (now : Nat) (rs : Nat → Nat) :
    ∀ (bs : List Boat) (i0 : Nat), ∀ h ∈ (launchHarpoons now rs bs i0).2,
      h.position.2 = 6 := by
  intro bs
  induction bs with
  | nil =>
    intro i0 h hh
    simp [launchHarpoons] at hh
  | cons a bs ih =>
    intro i0 h hh
    simp only [launchHarpoons] at hh
    rw [List.mem_append] at hh
    rcases hh with hh | hh
    · split at hh
      · rw [List.mem_singleton] at hh
        subst hh
        rfl
      · simp at hh
    · exact ih (i0 + 1) h hh

theorem GameState.input_entitiesInBounds (s : GameState) (now : Nat) (keys : List Key)
    (hinv : s.entitiesInBounds) : (s.input now keys).entitiesInBounds := by
  unfold GameState.entitiesInBounds at hinv ⊢
  rw [GameState.input_boats, GameState.input_harpoons, GameState.input_size]
  exact hinv

theorem GameState.harpoonCollide_entitiesInBounds (s : GameState) (now : Nat)
    (hinv : s.entitiesInBounds) : (s.harpoonCollide now).entitiesInBounds := by
  unfold GameState.entitiesInBounds at hinv ⊢
  rw [GameState.harpoonCollide_boats, GameState.harpoonCollide_harpoons,
    GameState.harpoonCollide_size]
  exact ⟨hinv.1, fun h hm => hinv.2 h (List.mem_of_mem_filter hm)⟩

theorem GameState.krillCollide_entitiesInBounds (s : GameState)
    (hinv : s.entitiesInBounds) : s.krillCollide.entitiesInBounds := by
  unfold GameState.entitiesInBounds at hinv ⊢
  rw [GameState.krillCollide_boats, GameState.krillCollide_harpoons, GameState.krillCollide_size]
  exact hinv

theorem GameState.boatPhase_entitiesInBounds (s : GameState) (now : Nat)
    (hinv : s.entitiesInBounds) : (s.boatPhase now).entitiesInBounds := by
  obtain ⟨hb, hharp⟩ := hinv
  unfold GameState.entitiesInBounds GameState.boatPhase
  split
  · refine ⟨?_, ?_⟩
    · intro b hbm
      dsimp only at hbm ⊢
      rw [List.mem_map] at hbm
      obtain ⟨a, ham, rfl⟩ := hbm
      have hfil := List.of_mem_filter ham
      simp only [decide_eq_true_eq] at hfil
      simpa [Boat.migrate] using hfil
    · intro h hm
      dsimp only at hm ⊢
      exact hharp h hm
  · exact ⟨hb, hharp⟩

theorem GameState.harpoonPhase_entitiesInBounds (s : GameState) (now : Nat)
    (hinv : s.entitiesInBounds) : (s.harpoonPhase now).entitiesInBounds := by
  obtain ⟨hb, hharp⟩ := hinv
  unfold GameState.entitiesInBounds GameState.harpoonPhase
  split
  · refine ⟨?_, ?_⟩
    · intro b hbm
      dsimp only at hbm ⊢
      exact hb b hbm
    · intro h hm
      dsimp only at hm ⊢
      rw [List.mem_map] at hm
      obtain ⟨a, ham, rfl⟩ := hm
      have hfil := List.of_mem_filter ham
      simp only [decide_eq_true_eq] at hfil
      simpa [Harpoon.migrate] using hfil
  · exact ⟨hb, hharp⟩

theorem GameState.krillSpawnPhase_entitiesInBounds (s : GameState) (now rx ry rdelay : Nat)
    (hinv : s.entitiesInBounds) : (s.krillSpawnPhase now rx ry rdelay).entitiesInBounds := by
  unfold GameState.entitiesInBounds at hinv ⊢
  rw [GameState.krillSpawnPhase_boats, GameState.krillSpawnPhase_harpoons,
    GameState.krillSpawnPhase_size]
  exact hinv

theorem GameState.boatSpawnPhase_entitiesInBounds (s : GameState) (now rdelay rboat : Nat)
    (hw : 0 < s.size.1) (hinv : s.entitiesInBounds) :
    (s.boatSpawnPhase now rdelay rboat).entitiesInBounds := by
  obtain ⟨hb, hharp⟩ := hinv
  unfold GameState.entitiesInBounds GameState.boatSpawnPhase
  split
  · refine ⟨?_, ?_⟩
    · intro b hbm
      dsimp only at hbm ⊢
      rw [List.mem_append] at hbm
      rcases hbm with hm | hm
      · exact hb b hm
      · rw [List.mem_singleton] at hm
        subst hm
        simpa [Boat.new] using hw
    · intro h hm
      dsimp only at hm ⊢
      exact hharp h hm
  · exact ⟨hb, hharp⟩

theorem GameState.launchPhase_entitiesInBounds (s : GameState) (now : Nat) (rs : Nat → Nat)
    (hh : 6 < s.size.2) (hinv : s.entitiesInBounds) :
    (s.launchPhase now rs).entitiesInBounds := by
  obtain ⟨hb, hharp⟩ := hinv
  unfold GameState.entitiesInBounds GameState.launchPhase
  dsimp only
  refine ⟨?_, ?_⟩
  · intro b hbm
    obtain ⟨a, ham, hpos⟩ := launchHarpoons_boats_mem now rs s.boats 0 b hbm
    rw [hpos]
    exact hb a ham
  · intro h hm
    rw [List.mem_append] at hm
    rcases hm with hm | hm
    · exact hharp h hm
    · rw [launchHarpoons_harpoons_row now rs s.boats 0 h hm]
      exact hh

/-- One whole tick preserves the bounds invariant on any field with positive
width and more than the six reserved rows. -/
theorem GameState.tick_preserves_entitiesInBounds (s : GameState) (now : Nat) (o : Oracle)
    (hw : 0 < s.size.1) (hh : 6 < s.size.2) (hinv : s.entitiesInBounds) :
    (s.tick now o).1.entitiesInBounds := by
  unfold GameState.tick GameState.think
  dsimp only
  have h0 := GameState.input_entitiesInBounds s now o.keys hinv
  have h1 := GameState.harpoonCollide_entitiesInBounds _ now h0
  have h2 := GameState.krillCollide_entitiesInBounds _ h1
  have h3 := GameState.boatPhase_entitiesInBounds _ now h2
  have h4 := GameState.harpoonPhase_entitiesInBounds _ now h3
  have h5 := GameState.krillSpawnPhase_entitiesInBounds _ now o.krillX o.krillY o.krillDelay h4
  have hsz5 : ((((((s.input now o.keys).harpoonCollide now).krillCollide).boatPhase
      now).harpoonPhase now).krillSpawnPhase now o.krillX o.krillY o.krillDelay).size
      = s.size := by
    rw [GameState.krillSpawnPhase_size, GameState.harpoonPhase_size, GameState.boatPhase_size,
      GameState.krillCollide_size, GameState.harpoonCollide_size, GameState.input_size]
  have h6 := GameState.boatSpawnPhase_entitiesInBounds _ now o.boatDelay o.boatLaunch
    (by rw [hsz5]; exact hw) h5
  have hsz6 : (((((((s.input now o.keys).harpoonCollide now).krillCollide).boatPhase
      now).harpoonPhase now).krillSpawnPhase now o.krillX o.krillY
      o.krillDelay).boatSpawnPhase now o.boatDelay o.boatLaunch).size = s.size := by
    rw [GameState.boatSpawnPhase_size, hsz5]
  exact GameState.launchPhase_entitiesInBounds _ now o.launchDelay
    (by rw [hsz6]; exact hh) h6

/-- Every reachable state keeps the field size `GameState::new` accepted. -/
theorem Reachable.sizes (s : GameState) (hr : Reachable s) :
    20 ≤ s.size.1 ∧ 15 ≤ s.size.2 := by
  induction hr with
  | init size now hw hh => exact ⟨hw, hh⟩
  | step t now o _ ih =>
    rw [GameState.tick_size]
    exact ih

/-- Claim C7: after every tick (indeed in every reachable state), every
surviving boat is strictly inside the field on its horizontal axis of travel
and every surviving harpoon strictly inside on its vertical axis; the
cull-then-move ordering of think steps 3 and 4 makes the moved survivors
stay below the bound. -/
theorem c7_entities_in_bounds (s : GameState) (hr : Reachable s) : s.entitiesInBounds := by
  induction hr with
  | init size now hw hh =>
    exact ⟨fun b hb => absurd hb (List.not_mem_nil b), fun h hm => absurd hm (List.not_mem_nil h)⟩
  | step t now o ht ih =>
    have hs := Reachable.sizes t ht
    exact GameState.tick_preserves_entitiesInBounds t now o (by omega) (by omega) ih

/-- Claim C7 witness: the invariant holds in a concrete reachable state. -/
theorem c7_entities_in_bounds_witness :
    (GameState.fresh (20, 15) 3).entitiesInBounds :=
  c7_entities_in_bounds (GameState.fresh (20, 15) 3)
    (Reachable.init (20, 15) 3 (by decide) (by decide))

/-! Lemmas for the parity invariant (claim C10). -/

theorem Krill.new_fst_even (size : Point) (rx ry : Nat) :
    (Krill.new size rx ry).position.1 % 2 = 0 := by
  unfold Krill.new
  exact Nat.mul_mod_left _ 2

theorem GameState.tick_player_fst_mod_two (s : GameState) (now : Nat) (o : Oracle) :
    (s.tick now o).1.player.position.1 % 2 = s.player.position.1 % 2 := by
  unfold GameState.tick
  dsimp only
  rw [GameState.think_player_position, GameState.input_player_fst_mod_two]

theorem GameState.krillSpawnPhase_krill_mem (s : GameState) (now rx ry rdelay : Nat) :
    ∀ k ∈ (s.krillSpawnPhase now rx ry rdelay).krill,
      k ∈ s.krill ∨ k = Krill.new s.size rx ry := by
  unfold GameState.krillSpawnPhase
  split
  · intro k hk
    dsimp only at hk
    rw [List.mem_append] at hk
    rcases hk with hk | hk
    · exact Or.inl hk
    · rw [List.mem_singleton] at hk
      exact Or.inr hk
  · intro k hk
    exact Or.inl hk

/-- Any krill present after a tick was already present before it or is the
krill this tick spawned (at the field size of the pre-tick state). -/
theorem GameState.tick_krill_mem (s : GameState) (now : Nat) (o : Oracle) :
    ∀ k ∈ (s.tick now o).1.krill, k ∈ s.krill ∨ k = Krill.new s.size o.krillX o.krillY := by
  unfold GameState.tick GameState.think
  dsimp only
  intro k hk
  rw [GameState.launchPhase_krill, GameState.boatSpawnPhase_krill] at hk
  set m := (((((s.input now o.keys).harpoonCollide now).krillCollide).boatPhase
    now).harpoonPhase now) with hm
  have hmsize : m.size = s.size := by
    rw [hm, GameState.harpoonPhase_size, GameState.boatPhase_size, GameState.krillCollide_size,
      GameState.harpoonCollide_size, GameState.input_size]
  rcases GameState.krillSpawnPhase_krill_mem m now o.krillX o.krillY o.krillDelay k hk with
    hmem | hnew
  · left
    have hmk : m.krill = ((s.input now o.keys).harpoonCollide now).krill.filter
        (fun k => k.position ≠ ((s.input now o.keys).harpoonCollide now).player.position) := by
      rw [hm, GameState.harpoonPhase_krill, GameState.boatPhase_krill,
        GameState.krillCollide_krill]
    rw [hmk, GameState.harpoonCollide_krill, GameState.input_krill] at hmem
    exact List.mem_of_mem_filter hmem
  · right
    rw [hmsize] at hnew
    exact hnew

/-- In every reachable state the player's column keeps the parity of
`width / 2` and every krill sits in an even column. -/
theorem Reachable.parity (s : GameState) (hr : Reachable s) :
    s.player.position.1 % 2 = s.size.1 / 2 % 2 ∧ ∀ k ∈ s.krill, k.position.1 % 2 = 0 := by
  induction hr with
  | init size now _ _ =>
    exact ⟨rfl, fun k hk => absurd hk (List.not_mem_nil k)⟩
  | step t now o _ ih =>
    obtain ⟨ihp, ihk⟩ := ih
    constructor
    · rw [GameState.tick_player_fst_mod_two, GameState.tick_size]
      exact ihp
    · intro k hk
      rcases GameState.tick_krill_mem t now o k hk with hm | hkeq
      · exact ihk k hm
      · rw [hkeq]
        exact Krill.new_fst_even t.size o.krillX o.krillY

/-- Claim C10: the parity of the player's column is invariant (it starts at
`width / 2` and every move shifts it by 0 or 2), every krill spawns in an
even column, and therefore on a field where `width / 2` is odd no krill can
ever occupy the player's position. -/
theorem c10_parity_separation (s : GameState) (hr : Reachable s) :
    s.player.position.1 % 2 = s.size.1 / 2 % 2 ∧
      (∀ k ∈ s.krill, k.position.1 % 2 = 0) ∧
      (s.size.1 / 2 % 2 = 1 → ∀ k ∈ s.krill, k.position ≠ s.player.position) := by
  obtain ⟨hp, hk⟩ := Reachable.parity s hr
  refine ⟨hp, hk, ?_⟩
  intro hodd k hkm heq
  have hx : k.position.1 = s.player.position.1 := congrArg Prod.fst heq
  have hke := hk k hkm
  omega

/-- Claim C10 witness: the parity facts in a concrete reachable 22x15 game,
whose `width / 2 = 11` is odd. -/
theorem c10_parity_separation_witness :
    (GameState.fresh (22, 15) 0).player.position.1 % 2
        = (GameState.fresh (22, 15) 0).size.1 / 2 % 2 ∧
      (∀ k ∈ (GameState.fresh (22, 15) 0).krill, k.position.1 % 2 = 0) ∧
      ((GameState.fresh (22, 15) 0).size.1 / 2 % 2 = 1 →
        ∀ k ∈ (GameState.fresh (22, 15) 0).krill,
          k.position ≠ (GameState.fresh (22, 15) 0).player.position) :=
  c10_parity_separation (GameState.fresh (22, 15) 0)
    (Reachable.init (22, 15) 0 (by decide) (by decide))
